import Mathlib

set_option maxRecDepth 10000

/-!
Verification of the Naoko sqlite persistence layer (naoko/lib/database.py).

The Python module is shallowly embedded.  The sqlite engine state that the
module observes and mutates (table names, index names, rows of the
metadata table, rows of the chat table) is the structure `SQLiteDB`;
Python exceptions become the inductive `DBError`; every fallible operation
returns `Except DBError`.  Wall-clock time (int(time.time())) is passed
explicitly as an argument where the source reads the clock.
-/

deriving instance DecidableEq for Except

/-- Python values that flow through the chat-insertion path: None, an
integer, or a string. -/
inductive PyVal where
  | none
  | int (n : Int)
  | str (s : String)
deriving DecidableEq, Repr

/-- Python exceptions raised by the module, with the data each message is
formatted from.  `stateClosed` and `stateNotOpen` are the two
sqlite3.DatabaseError raises of the dbopen decorator (the spec calls them
StateError); `badColumns`, `badOrderby` and `badNum` are the
sqlite3.ProgrammingError raises of getVideos (the spec calls them
ValidationError); `intParse` is the ValueError of int() in _getVersion
(the spec calls it SchemaError); `noneSubscript` is the TypeError of
subscripting the None returned by fetchone(); `missingTables` is the
ValueError of the required-tables check in the constructor; `sqlError`
stands for engine-level sqlite errors. -/
inductive DBError where
  | stateClosed
  | stateNotOpen
  | badColumns (cols : List String)
  | badOrderby (ob : List String)
  | badNum (r : String)
  | intParse (s : String)
  | noneSubscript
  | missingTables (ts : List String)
  | sqlError (m : String)
deriving DecidableEq, Repr

/-- Comma-separated join of a list of strings, as the Python
expression joining with a comma and a space does. -/
def joinCols : List String → String
  | [] => ""
  | [c] => c
  | c :: d :: rest => c ++ ", " ++ joinCols (d :: rest)

/-- Message text of each error, as the Python source formats it (the
rendering of Python container reprs is abstracted to a comma-separated
join). -/
def DBError.message : DBError → String
  | DBError.stateClosed => "Cannot perform operations on closed database"
  | DBError.stateNotOpen => "Database must be open to perform operations"
  | DBError.badColumns cols =>
      "Argument columns: " ++ joinCols cols ++
        " not a subset of video columns type, id, duration_ms, title"
  | DBError.badOrderby ob => "Invalid orderby " ++ joinCols ob
  | DBError.badNum r => "Invalid num " ++ r
  | DBError.intParse s => "invalid literal for int with base 10: " ++ s
  | DBError.noneSubscript => "NoneType object is unsubscriptable"
  | DBError.missingTables ts =>
      "Database is non-empty but does not provide required tables " ++ joinCols ts
  | DBError.sqlError m => m

/-- Python exception class of each error, as raised by the source. -/
def DBError.pyClass : DBError → String
  | DBError.stateClosed => "DatabaseError"
  | DBError.stateNotOpen => "DatabaseError"
  | DBError.badColumns _ => "ProgrammingError"
  | DBError.badOrderby _ => "ProgrammingError"
  | DBError.badNum _ => "ProgrammingError"
  | DBError.intParse _ => "ValueError"
  | DBError.noneSubscript => "TypeError"
  | DBError.missingTables _ => "ValueError"
  | DBError.sqlError _ => "OperationalError"

/-- Value of a nonempty all-digit character list, read in base 10;
`Option.none` when the list is empty or holds a non-digit. -/
def digitsVal (cs : List Char) : Option Nat :=
  if cs = [] then Option.none
  else if cs.all Char.isDigit then
    Option.some (cs.foldl (fun a c => a * 10 + (c.toNat - 48)) 0)
  else Option.none

/-- Whitespace stripped from both ends of a character list. -/
def pyStrip (cs : List Char) : List Char :=
  ((cs.dropWhile Char.isWhitespace).reverse.dropWhile Char.isWhitespace).reverse

/-- Embedding of the Python builtin int() applied to a string: strip
surrounding whitespace, allow one leading sign, then require a nonempty
run of decimal digits. -/
def pyInt (s : String) : Option Int :=
  match pyStrip s.toList with
  | '-' :: rest => (digitsVal rest).map (fun n => -(n : Int))
  | '+' :: rest => (digitsVal rest).map (fun n => (n : Int))
  | cs => (digitsVal cs).map (fun n => (n : Int))

/-- Row of the chat table: the 7-tuple (timestamp, username, userid, msg,
protocol, channel, flags) that insertChat binds. -/
structure ChatRow where
  timestamp : PyVal
  username : PyVal
  userid : PyVal
  msg : PyVal
  protocol : PyVal
  channel : PyVal
  flags : PyVal
deriving DecidableEq, Repr

/-- Engine state visible to the module: the set of table names (what the
sqlite_master query returns), the indexes as (index name, indexed table)
pairs, the rows of the metadata table as (key, value) pairs, and the rows
of the chat table. -/
structure SQLiteDB where
  tables : List String
  indexes : List (String × String)
  metadata : List (String × String)
  chat : List ChatRow
deriving DecidableEq, Repr

/-- Effect of CREATE TABLE on the engine state: fails when the table
already exists, otherwise records the (empty) table. -/
def createTable (name : String) (db : SQLiteDB) : Except DBError SQLiteDB :=
  if name ∈ db.tables then
    Except.error (DBError.sqlError ("table " ++ name ++ " already exists"))
  else
    Except.ok (SQLiteDB.mk (db.tables ++ [name]) db.indexes
      (if name = "metadata" then [] else db.metadata)
      (if name = "chat" then [] else db.chat))

/-- Effect of DROP TABLE on the engine state: fails when the table does
not exist; sqlite also drops the indexes of a dropped table, and the
rows of a dropped table are gone. -/
def dropTable (name : String) (db : SQLiteDB) : Except DBError SQLiteDB :=
  if name ∈ db.tables then
    Except.ok (SQLiteDB.mk (db.tables.filter (fun t => t ≠ name))
      (db.indexes.filter (fun ix => ix.2 ≠ name))
      (if name = "metadata" then [] else db.metadata)
      (if name = "chat" then [] else db.chat))
  else Except.error (DBError.sqlError ("no such table: " ++ name))

/-- Effect of CREATE INDEX on the engine state: fails when the indexed
table is missing or the index name is taken. -/
def createIndex (name tbl : String) (db : SQLiteDB) : Except DBError SQLiteDB :=
  if tbl ∈ db.tables then
    if name ∈ db.indexes.map Prod.fst then
      Except.error (DBError.sqlError ("index " ++ name ++ " already exists"))
    else Except.ok (SQLiteDB.mk db.tables (db.indexes ++ [(name, tbl)]) db.metadata db.chat)
  else Except.error (DBError.sqlError ("no such table: " ++ tbl))

/-- Effect of inserting a (key, value) row into the metadata table, whose
primary key is the key column: fails when the table is missing or the key
is already present. -/
def insertMetadataRow (k v : String) (db : SQLiteDB) : Except DBError SQLiteDB :=
  if "metadata" ∈ db.tables then
    if db.metadata.filter (fun r => r.1 = k) = [] then
      Except.ok (SQLiteDB.mk db.tables db.indexes (db.metadata ++ [(k, v)]) db.chat)
    else Except.error (DBError.sqlError "UNIQUE constraint failed: metadata.key")
  else Except.error (DBError.sqlError "no such table: metadata")

/-- Statements of the fixed upgrade list in _upgrade_1_2, in source
order: create the metadata table, create the chat table, create the
chat_ts index on chat(timestamp), create the chat_user index on
chat(username), insert the metadata row recording dbversion 2. -/
inductive Stmt where
  | createMetadataTable
  | createChatTable
  | createChatTsIndex
  | createChatUserIndex
  | insertVersionMarker
deriving DecidableEq, Repr

/-- Effect of one upgrade statement on the engine state (what
executeDML of that statement does to the engine). -/
def execStmt : Stmt → SQLiteDB → Except DBError SQLiteDB
  | Stmt.createMetadataTable, db => createTable "metadata" db
  | Stmt.createChatTable, db => createTable "chat" db
  | Stmt.createChatTsIndex, db => createIndex "chat_ts" "chat" db
  | Stmt.createChatUserIndex, db => createIndex "chat_user" "chat" db
  | Stmt.insertVersionMarker, db => insertMetadataRow "dbversion" "2" db

/-- Fixed ordered statement list of _upgrade_1_2, exactly as the source
lists its upgrade_stmts. -/
def upgrade_stmts : List Stmt :=
  [Stmt.createMetadataTable, Stmt.createChatTable, Stmt.createChatTsIndex,
   Stmt.createChatUserIndex, Stmt.insertVersionMarker]

/-- Sequential execution of a statement list, one executeDML per
statement, stopping at the first error, as the for loop of _upgrade_1_2
does. -/
def runStmts : List Stmt → SQLiteDB → Except DBError SQLiteDB
  | [], db => Except.ok db
  | s :: rest, db =>
    match execStmt s db with
    | Except.error e => Except.error e
    | Except.ok db2 => runStmts rest db2

/-- Embedding of NaokoDB._upgrade_1_2: run the fixed statement list in
order. -/
def upgrade_1_2 (db : SQLiteDB) : Except DBError SQLiteDB :=
  runStmts upgrade_stmts db

/-- Embedding of NaokoDB._getVersion: if a metadata table exists, run the
version query (select value where key is dbversion), subscript the first
row (a TypeError when there is none), and parse the value with int()
(a ValueError when malformed); otherwise return 1. -/
def NaokoDB.getVersionImpl (db : SQLiteDB) : Except DBError Int :=
  if "metadata" ∈ db.tables then
    match (db.metadata.filter (fun r => r.1 = "dbversion")).head? with
    | Option.none => Except.error DBError.noneSubscript
    | Option.some row =>
      match pyInt row.2 with
      | Option.some n => Except.ok n
      | Option.none => Except.error (DBError.intParse row.2)
  else Except.ok 1

/-- Modelled from the spec: the initialization script naoko.sql is not
part of the repository sources; per the spec a blank database initialized
from it carries the full version-2 schema: the required tables, the
metadata table, the two chat indexes, and the dbversion marker with
value 2. -/
def initscriptDB : SQLiteDB :=
  SQLiteDB.mk ["video_stats", "videos", "chat", "metadata"]
    [("chat_ts", "chat"), ("chat_user", "chat")]
    [("dbversion", "2")]
    []

/-- Embedding of NaokoDB._setupSchema.  Alongside the resulting engine
state it returns the warnings logged (logger.warn calls).  A blank
database (no tables) is initialized from the init script; otherwise the
stored version is inspected: version 1 triggers the 1-to-2 upgrade,
version 2 is a no-op, and any other version only logs a warning. -/
def NaokoDB.setupSchema (db : SQLiteDB) : Except DBError (SQLiteDB × List String) :=
  if db.tables.length = 0 then Except.ok (initscriptDB, [])
  else
    match NaokoDB.getVersionImpl db with
    | Except.error e => Except.error e
    | Except.ok v =>
      if v = 1 then
        match upgrade_1_2 db with
        | Except.error e => Except.error e
        | Except.ok db2 => Except.ok (db2, [])
      else if v = 2 then Except.ok (db, [])
      else Except.ok (db, ["UNKNOWN DATABASE VERSION: " ++ toString v])

/-- Handle returned by the NaokoDB constructor: the _state field (the
source only ever assigns the strings open and closed to it), the engine
state behind the connection, and the writes buffered on the connection
that a commit would flush (used by the chat-insertion path). -/
structure Handle where
  state : String
  db : SQLiteDB
  pendingChat : List ChatRow
deriving DecidableEq, Repr

/-- Error the dbopen decorator raises for a given non-open state: the
closed state gets its own message, any other non-open state the generic
one. -/
def guardErr (state : String) : DBError :=
  if state = "closed" then DBError.stateClosed else DBError.stateNotOpen

/-- Embedding of the dbopen decorator: the guarded body may only run when
the state is open; otherwise the call raises. -/
def dbopen_check (state : String) : Except DBError Unit :=
  if state = "open" then Except.ok Unit.unit
  else Except.error (guardErr state)

/-- Required table set of NaokoDB, in source order. -/
def requiredTables : List String := ["video_stats", "videos", "chat"]

/-- Embedding of NaokoDB.__init__ from the point where sqlite3.connect
has succeeded: the state is set to open, then _setupSchema runs, then the
required-tables invariant is checked.  The first component is the object
as constructed (in Python a raise inside __init__ aborts construction, so
the caller never receives the object, but its fields are as recorded
here); the second component is the error raised, if any. -/
def NaokoDB.construct (db0 : SQLiteDB) : Handle × Option DBError :=
  let h0 := Handle.mk "open" db0 []
  match NaokoDB.setupSchema db0 with
  | Except.error e => (h0, Option.some e)
  | Except.ok res =>
    let h1 := Handle.mk "open" res.1 []
    if ∀ t ∈ requiredTables, t ∈ res.1.tables then (h1, Option.none)
    else (h1, Option.some (DBError.missingTables
      (requiredTables.filter (fun t => ¬ t ∈ res.1.tables))))

/-- Embedding of NaokoDB.close (which delegates to __exit__): the state
becomes closed and the underlying connection is released. -/
def NaokoDB.close (h : Handle) : Handle :=
  Handle.mk "closed" h.db h.pendingChat

/-- Commit on the underlying connection: buffered chat writes are flushed
into the chat table. -/
def commitHandle (h : Handle) : Handle :=
  Handle.mk h.state
    (SQLiteDB.mk h.db.tables h.db.indexes h.db.metadata (h.db.chat ++ h.pendingChat))
    []

/-- Embedding of NaokoDB.cursor: guarded by dbopen; returns a fresh
cursor (whose identity is not modelled). -/
def NaokoDB.cursorOp (h : Handle) : Except DBError Unit :=
  match dbopen_check h.state with
  | Except.error e => Except.error e
  | Except.ok _ => Except.ok Unit.unit

/-- Embedding of NaokoDB.execute: guarded by dbopen; the body opens a
cursor (itself guarded) and executes the statement against the engine. -/
def NaokoDB.executeOp (h : Handle) (stmt : Stmt) : Except DBError SQLiteDB :=
  match dbopen_check h.state with
  | Except.error e => Except.error e
  | Except.ok _ =>
    match dbopen_check h.state with
    | Except.error e => Except.error e
    | Except.ok _ => execStmt stmt h.db

/-- Embedding of NaokoDB.executeDML: guarded by dbopen; the body runs
execute and closes the cursor. -/
def NaokoDB.executeDMLOp (h : Handle) (stmt : Stmt) : Except DBError SQLiteDB :=
  match dbopen_check h.state with
  | Except.error e => Except.error e
  | Except.ok _ => NaokoDB.executeOp h stmt

/-- Embedding of NaokoDB.executescript: guarded by dbopen; the body opens
a cursor (itself guarded) and runs a whole statement list. -/
def NaokoDB.executescriptOp (h : Handle) (script : List Stmt) : Except DBError SQLiteDB :=
  match dbopen_check h.state with
  | Except.error e => Except.error e
  | Except.ok _ =>
    match dbopen_check h.state with
    | Except.error e => Except.error e
    | Except.ok _ => runStmts script h.db

/-- Embedding of NaokoDB.fetch: guarded by dbopen; the body runs execute
and drains the cursor. -/
def NaokoDB.fetchOp (h : Handle) (stmt : Stmt) : Except DBError SQLiteDB :=
  match dbopen_check h.state with
  | Except.error e => Except.error e
  | Except.ok _ => NaokoDB.executeOp h stmt

/-- Embedding of NaokoDB.commit: guarded by dbopen; the body commits on
the underlying connection. -/
def NaokoDB.commitOp (h : Handle) : Except DBError Handle :=
  match dbopen_check h.state with
  | Except.error e => Except.error e
  | Except.ok _ => Except.ok (commitHandle h)

/-- Embedding of NaokoDB.insertChat.  The argument now stands for
int(time.time()) read when the call defaults the timestamp; the five
arguments after username carry what Python passes when the caller omits
them (None for userid, timestamp, channel and flags, the string ST for
protocol).  The body defaults userid to username and timestamp to now,
forms the 7-tuple, opens a guarded cursor, executes the single
parameterized INSERT, and commits (guarded) immediately. -/
def NaokoDB.insertChat (h : Handle) (now : Int)
    (msg username userid timestamp protocol channel flags : PyVal) :
    Except DBError Handle :=
  let uid := if userid = PyVal.none then username else userid
  let ts := if timestamp = PyVal.none then PyVal.int now else timestamp
  let row := ChatRow.mk ts username uid msg protocol channel flags
  match dbopen_check h.state with
  | Except.error e => Except.error e
  | Except.ok _ =>
    if "chat" ∈ h.db.tables then
      let h1 := Handle.mk h.state h.db (h.pendingChat ++ [row])
      match dbopen_check h1.state with
      | Except.error e => Except.error e
      | Except.ok _ => Except.ok (commitHandle h1)
    else Except.error (DBError.sqlError "no such table: chat")

/-- Legal column set of getVideos: the union of the videos columns and
the video_stats columns (Python iterates a set in unspecified order; the
embedding fixes one order, which no claim depends on). -/
def legal_cols : List String := ["type", "id", "duration_ms", "title", "uname"]

/-- Column canonicalization of getVideos: the columns id and type are
replaced by their videos-alias forms, all other columns pass through. -/
def col_repl (col : String) : String :=
  if col = "id" then "v.id" else if col = "type" then "v.type" else col

/-- SELECT-FROM-WHERE text getVideos assembles for a column list, exactly
as the source concatenates sel_cls, from_cls and where_cls. -/
def videosBaseSQL (cols : List String) : String :=
  "SELECT " ++ joinCols (cols.map col_repl) ++
    " FROM video_stats vs, videos v " ++
    " WHERE vs.type = v.type AND vs.id = v.id "

/-- ASCII lowercasing of one character, what the Python lower method does
on the ASCII strings this module compares. -/
def lowerChar (c : Char) : Char :=
  if c.toNat ≥ 65 ∧ c.toNat ≤ 90 then Char.ofNat (c.toNat + 32) else c

/-- ASCII lowercasing of a string. -/
def pyLower (s : String) : String :=
  String.mk (s.toList.map lowerChar)

/-- Embedding of the inner matchOrderBy helper of getVideos, a faithful
translation of the reachable part of the Python function, including the
comparison of every element of this against element 1 of other (the loop
body short-circuits on a False accumulator, so the total indexing with a
default is equivalent to the partial Python indexing). -/
def matchOrderBy (this other : List String) : Bool :=
  if this = other then true
  else
    (List.range this.length).foldl
      (fun v i => v && (pyLower (this.getD i "") == pyLower (other.getD 1 "")))
      (this.length == 2 && other.length == 2)

/-- Argument num of getVideos as Python sees it: None, an int (or long),
or a value of any other type (carrying its repr for the error message). -/
inductive PyNum where
  | none
  | int (n : Int)
  | other (r : String)
deriving DecidableEq, Repr

/-- Embedding of the query-construction part of NaokoDB.getVideos: the
default and the subset check on columns, the column canonicalization, the
SQL text assembly, the orderby matching, and the num check.  The result
is the statement text and the bind parameters the source would hand to
execute (a returned error means the source raises before any SQL is
issued to the engine); running the statement on the engine is out of
scope, as the spec places the sqlite engine outside the system. -/
def NaokoDB.getVideosQuery (num : PyNum) (columns : Option (List String))
    (orderby : Option (List String)) : Except DBError (String × List Int) :=
  let cols := match columns with
    | Option.none => legal_cols
    | Option.some cs => if cs = [] then legal_cols else cs
  if ¬ cols.all (fun c => c ∈ legal_cols) then
    Except.error (DBError.badColumns cols)
  else
    let sql := videosBaseSQL cols
    let ordered : Except DBError String :=
      match orderby with
      | Option.none => Except.ok sql
      | Option.some ob =>
        if matchOrderBy ob ["id", "ASC"] then Except.ok (sql ++ " ORDER BY v.id ASC")
        else if matchOrderBy ob ["id", "DESC"] then Except.ok (sql ++ " ORDER BY v.id DESC")
        else if matchOrderBy ob ["RANDOM()"] then Except.ok (sql ++ " ORDER BY RANDOM()")
        else Except.error (DBError.badOrderby ob)
    match ordered with
    | Except.error e => Except.error e
    | Except.ok sql2 =>
      match num with
      | PyNum.int n => Except.ok (sql2 ++ " LIMIT ?", [n])
      | PyNum.none => Except.ok (sql2, [])
      | PyNum.other r => Except.error (DBError.badNum r)

/-- Engine semantics of a bound LIMIT parameter on a result row list
(sqlite treats a negative limit as no limit). -/
def applyLimit (n : Int) (rows : List (List PyVal)) : List (List PyVal) :=
  if n < 0 then rows else rows.take n.toNat

/-- Downgrade performed by the upgrade test in the source: drop the
metadata table, then drop the chat table. -/
def downgrade (db : SQLiteDB) : Except DBError SQLiteDB :=
  match dropTable "metadata" db with
  | Except.error e => Except.error e
  | Except.ok db1 => dropTable "chat" db1

/-- Database with a metadata table whose dbversion value does not parse
as an integer: schema inspection fails on it during construction. -/
def exDB1 : SQLiteDB := SQLiteDB.mk ["metadata"] [] [("dbversion", "x")] []

/-- Database that upgrades cleanly but lacks the required video_stats
table: the required-tables check fails on it during construction. -/
def exDB2 : SQLiteDB := SQLiteDB.mk ["videos"] [] [] []

/-- State the downgrade of the upgrade test leaves behind: drop the
metadata table (its rows and indexes go with it), then drop the chat
table likewise. -/
@[reducible] def droppedDB (db : SQLiteDB) : SQLiteDB :=
  SQLiteDB.mk
    ((db.tables.filter (fun t => t ≠ "metadata")).filter (fun t => t ≠ "chat"))
    ((db.indexes.filter (fun ix => ix.2 ≠ "metadata")).filter
      (fun ix => ix.2 ≠ "chat"))
    [] []

/-- State the five upgrade statements rebuild from the downgraded one:
the metadata and chat tables re-created, the two chat indexes re-created,
and the dbversion marker re-inserted with value 2. -/
@[reducible] def upgradedDB (db : SQLiteDB) : SQLiteDB :=
  SQLiteDB.mk (((droppedDB db).tables ++ ["metadata"]) ++ ["chat"])
    (((droppedDB db).indexes ++ [("chat_ts", "chat")]) ++ [("chat_user", "chat")])
    [("dbversion", "2")] []

/-- Every member of a list occurs verbatim inside its comma-separated
join. -/
theorem joinCols_substr (c : String) (l : List String) (hc : c ∈ l) :
    ∃ p q, joinCols l = p ++ (c ++ q) := by
  induction l with
  | nil => cases hc
  | cons d rest ih =>
    rcases List.mem_cons.mp hc with h | h
    · subst h
      cases rest with
      | nil =>
        refine ⟨"", "", ?_⟩
        simp [joinCols]
      | cons e rest2 =>
        refine ⟨"", ", " ++ joinCols (e :: rest2), ?_⟩
        simp [joinCols, String.append_assoc]
    · cases rest with
      | nil => cases h
      | cons e rest2 =>
        obtain ⟨p, q, hpq⟩ := ih h
        refine ⟨d ++ ", " ++ p, q, ?_⟩
        simp [joinCols, hpq, String.append_assoc]

/-- Claim C1, counterexample: on a database whose stored version marker
does not parse, construction surfaces the schema error, yet the lifecycle
state of the object under construction is open at that point (the source
assigns the open state right after connecting, before running
_setupSchema), and a guarded data operation on such an object passes the
dbopen guard and succeeds — contradicting the claim that the state never
reaches open and that no guarded operation can succeed. -/
theorem C1_counterexample :
    (NaokoDB.construct exDB1).2 = Option.some (DBError.intParse "x") ∧
    (NaokoDB.construct exDB1).1.state = "open" ∧
    NaokoDB.cursorOp (NaokoDB.construct exDB1).1 = Except.ok Unit.unit := by
  decide

/-- Claim C1, amended: if any step of construction after the connection
is opened fails (schema inspection or migration error, or required tables
missing afterwards), the constructor surfaces exactly that error; however
the lifecycle state is assigned open immediately after the connection is
opened, before schema setup, so on such a failure the state of the object
is open and the dbopen guard would not block data operations on it —
unusability rests on the constructor raising, not on the state. -/
theorem C1_construct_surfaces (db0 : SQLiteDB) :
    (NaokoDB.construct db0).1.state = "open" ∧
    (∀ e, NaokoDB.setupSchema db0 = Except.error e →
      (NaokoDB.construct db0).2 = Option.some e) ∧
    (∀ res, NaokoDB.setupSchema db0 = Except.ok res →
      ¬ (∀ t ∈ requiredTables, t ∈ res.1.tables) →
      (NaokoDB.construct db0).2 =
        Option.some (DBError.missingTables
          (requiredTables.filter (fun t => ¬ t ∈ res.1.tables)))) ∧
    ((NaokoDB.construct db0).2 = Option.none ↔
      ∃ res, NaokoDB.setupSchema db0 = Except.ok res ∧
        ∀ t ∈ requiredTables, t ∈ res.1.tables) := by
  cases hsetup : NaokoDB.setupSchema db0 with
  | error e =>
    refine ⟨by simp [NaokoDB.construct, hsetup], ?_, ?_, ?_⟩
    · intro e2 he2
      cases he2
      simp [NaokoDB.construct, hsetup]
    · intro res hres
      cases hres
    · simp [NaokoDB.construct, hsetup]
  | ok res =>
    by_cases hall : ∀ t ∈ requiredTables, t ∈ res.1.tables
    · refine ⟨by simp only [NaokoDB.construct, hsetup]; rw [if_pos hall], ?_, ?_, ?_⟩
      · intro e2 he2
        cases he2
      · intro res2 hres2 hne
        cases hres2
        exact absurd hall hne
      · simp only [NaokoDB.construct, hsetup]
        rw [if_pos hall]
        simpa using hall
    · refine ⟨by simp [NaokoDB.construct, hsetup, hall], ?_, ?_, ?_⟩
      · intro e2 he2
        cases he2
      · intro res2 hres2 hne
        cases hres2
        simp [NaokoDB.construct, hsetup, hall]
      · simp [NaokoDB.construct, hsetup, hall]

/-- Claim C1, amended, witness: on the concrete database exDB2 the setup
succeeds but video_stats is still missing, and the constructor surfaces
the missing-tables error. -/
theorem C1_construct_surfaces_witness :
    (NaokoDB.construct exDB2).2 =
      Option.some (DBError.missingTables ["video_stats"]) :=
  (C1_construct_surfaces exDB2).2.2.1
    (SQLiteDB.mk ["videos", "metadata", "chat"]
      [("chat_ts", "chat"), ("chat_user", "chat")] [("dbversion", "2")] [], [])
    (by decide) (by decide)

/-- Claim C2: the docstring of getVideos allows exactly three orderby
values, yet the matchOrderBy helper also accepts the pair (ASC, ASC) —
which is none of the three — and the call builds the ascending ORDER BY
clause for it instead of raising, while the three documented values do
produce exactly their documented clauses: the code contradicts its own
documented whitelist. -/
theorem C2_orderby_whitelist_bug :
    NaokoDB.getVideosQuery PyNum.none Option.none (Option.some ["ASC", "ASC"]) =
      Except.ok (videosBaseSQL legal_cols ++ " ORDER BY v.id ASC", []) ∧
    (["ASC", "ASC"] ≠ ["id", "ASC"] ∧ ["ASC", "ASC"] ≠ ["id", "DESC"] ∧
      ["ASC", "ASC"] ≠ ["RANDOM()"]) ∧
    NaokoDB.getVideosQuery PyNum.none Option.none (Option.some ["id", "ASC"]) =
      Except.ok (videosBaseSQL legal_cols ++ " ORDER BY v.id ASC", []) ∧
    NaokoDB.getVideosQuery PyNum.none Option.none (Option.some ["id", "DESC"]) =
      Except.ok (videosBaseSQL legal_cols ++ " ORDER BY v.id DESC", []) ∧
    NaokoDB.getVideosQuery PyNum.none Option.none (Option.some ["RANDOM()"]) =
      Except.ok (videosBaseSQL legal_cols ++ " ORDER BY RANDOM()", []) ∧
    NaokoDB.getVideosQuery PyNum.none Option.none (Option.some ["id", "SIDEWAYS"]) =
      Except.error (DBError.badOrderby ["id", "SIDEWAYS"]) := by
  decide

/-- Claim C3, counterexample: a negative integer limit does not raise;
the source only tests isinstance of int and appends the bound LIMIT
parameter, so the call with limit -1 succeeds with -1 bound. -/
theorem C3_counterexample :
    (-1 : Int) < 0 ∧
    NaokoDB.getVideosQuery (PyNum.int (-1)) Option.none Option.none =
      Except.ok (videosBaseSQL legal_cols ++ " LIMIT ?", [-1]) := by
  decide

/-- Claim C3, amended: when limit is absent no LIMIT clause and no bind
parameter are produced; when limit is any integer — negative ones
included — the clause LIMIT ? is appended with the integer bound (and for
a non-negative bound the engine returns at most that many rows); when
limit is neither None nor an integer the call fails with the
ProgrammingError (the ValidationError of the spec) before any SQL is
issued. -/
theorem C3_limit_amended (n : Int) (rows : List (List PyVal)) :
    NaokoDB.getVideosQuery PyNum.none Option.none Option.none =
      Except.ok (videosBaseSQL legal_cols, []) ∧
    NaokoDB.getVideosQuery (PyNum.int n) Option.none Option.none =
      Except.ok (videosBaseSQL legal_cols ++ " LIMIT ?", [n]) ∧
    (0 ≤ n → (applyLimit n rows).length ≤ n.toNat) ∧
    (n < 0 → applyLimit n rows = rows) ∧
    (∀ r, NaokoDB.getVideosQuery (PyNum.other r) Option.none Option.none =
      Except.error (DBError.badNum r)) ∧
    (DBError.badNum "four").pyClass = "ProgrammingError" := by
  refine ⟨rfl, rfl, ?_, ?_, fun r => rfl, rfl⟩
  · intro hn
    simp only [applyLimit, if_neg (not_lt.mpr hn)]
    exact le_trans (List.length_take_le _ _) (le_refl _)
  · intro hn
    simp [applyLimit, hn]

/-- Claim C3, amended, witness: with the concrete limit 4 on a one-row
result, at most 4 rows come back. -/
theorem C3_limit_amended_witness :
    (applyLimit 4 [[PyVal.int 7]]).length ≤ (4 : Int).toNat :=
  (C3_limit_amended 4 [[PyVal.int 7]]).2.2.1 (by decide)

/-- Claim C4: every data operation (execute, executeDML, executescript,
fetch, commit, cursor — each wrapped by the dbopen decorator) invoked on
a handle whose state is not open fails with the guard DatabaseError (the
StateError of the spec), and the error raised on an explicitly closed
handle (its message names closed) is distinct from the one raised on a
handle never successfully opened. -/
theorem C4_guarded_ops (h : Handle) (stmt : Stmt) (script : List Stmt)
    (hs : h.state ≠ "open") :
    NaokoDB.executeOp h stmt = Except.error (guardErr h.state) ∧
    NaokoDB.executeDMLOp h stmt = Except.error (guardErr h.state) ∧
    NaokoDB.executescriptOp h script = Except.error (guardErr h.state) ∧
    NaokoDB.fetchOp h stmt = Except.error (guardErr h.state) ∧
    NaokoDB.commitOp h = Except.error (guardErr h.state) ∧
    NaokoDB.cursorOp h = Except.error (guardErr h.state) ∧
    (guardErr h.state).pyClass = "DatabaseError" ∧
    (h.state = "closed" → guardErr h.state = DBError.stateClosed) ∧
    (h.state ≠ "closed" → guardErr h.state = DBError.stateNotOpen) ∧
    DBError.message DBError.stateClosed =
      "Cannot perform operations on " ++ ("closed" ++ " database") ∧
    DBError.message DBError.stateClosed ≠ DBError.message DBError.stateNotOpen ∧
    (NaokoDB.close h).state = "closed" := by
  have hg : dbopen_check h.state = Except.error (guardErr h.state) := by
    simp [dbopen_check, hs]
  refine ⟨?_, ?_, ?_, ?_, ?_, ?_, ?_, ?_, ?_, by decide, by decide, rfl⟩
  · simp [NaokoDB.executeOp, hg]
  · simp [NaokoDB.executeDMLOp, NaokoDB.executeOp, hg]
  · simp [NaokoDB.executescriptOp, hg]
  · simp [NaokoDB.fetchOp, NaokoDB.executeOp, hg]
  · simp [NaokoDB.commitOp, hg]
  · simp [NaokoDB.cursorOp, hg]
  · by_cases hc : h.state = "closed" <;> simp [guardErr, hc, DBError.pyClass]
  · intro hc
    simp [guardErr, hc]
  · intro hc
    simp [guardErr, hc]

/-- Claim C4, witness: commit on an explicitly closed handle fails with
the DatabaseError naming closed. -/
theorem C4_guarded_ops_witness :
    NaokoDB.commitOp (NaokoDB.close (Handle.mk "open" initscriptDB [])) =
      Except.error DBError.stateClosed :=
  (C4_guarded_ops (NaokoDB.close (Handle.mk "open" initscriptDB []))
    Stmt.createChatTable [] (by decide)).2.2.2.2.1

/-- Claim C5: a columns argument that is not a subset of the legal column
set makes getVideos fail with the ProgrammingError (the ValidationError
of the spec) carrying the offending argument — whose every member,
offenders included, appears verbatim in the message — and the error is
returned in place of any statement, so no SQL is issued; an omitted
columns argument defaults to the full legal set; and the columns id and
type are projected through the videos alias as v.id and v.type. -/
theorem C5_columns_validation (cols : List String) (num : PyNum)
    (ob : Option (List String))
    (hbad : ¬ cols.all (fun c => c ∈ legal_cols)) :
    NaokoDB.getVideosQuery num (Option.some cols) ob =
      Except.error (DBError.badColumns cols) ∧
    (DBError.badColumns cols).pyClass = "ProgrammingError" ∧
    (∀ c ∈ cols, ∃ p q, (DBError.badColumns cols).message = p ++ (c ++ q)) ∧
    NaokoDB.getVideosQuery num Option.none ob =
      NaokoDB.getVideosQuery num (Option.some legal_cols) ob ∧
    col_repl "id" = "v.id" ∧ col_repl "type" = "v.type" ∧
    videosBaseSQL legal_cols =
      "SELECT v.type, v.id, duration_ms, title, uname" ++
        " FROM video_stats vs, videos v " ++
        " WHERE vs.type = v.type AND vs.id = v.id " := by
  have hne : cols ≠ [] := by
    intro hnil
    rw [hnil] at hbad
    exact hbad (by decide)
  refine ⟨?_, rfl, ?_, rfl, rfl, rfl, by decide⟩
  · simp only [NaokoDB.getVideosQuery, if_neg (by simpa using hne)]
    rw [if_pos]
    simpa using hbad
  · intro c hc
    obtain ⟨p, q, hpq⟩ := joinCols_substr c cols hc
    refine ⟨"Argument columns: " ++ p,
      q ++ " not a subset of video columns type, id, duration_ms, title", ?_⟩
    simp [DBError.message, hpq, String.append_assoc]

/-- Claim C5, witness: a bogus column fails with the error carrying it,
and the bogus name occurs in the message. -/
theorem C5_columns_validation_witness :
    NaokoDB.getVideosQuery PyNum.none (Option.some ["bogus"]) Option.none =
      Except.error (DBError.badColumns ["bogus"]) :=
  (C5_columns_validation ["bogus"] PyNum.none Option.none (by decide)).1

/-- Claim C6: getVersion is a pure read; it returns 1 exactly on every
database without a metadata table; with a metadata table present it
parses the first value stored under the dbversion key with int(),
returning the parsed integer, and fails with the ValueError (the
SchemaError of the spec) when the value does not parse. -/
theorem C6_getVersion (db : SQLiteDB) :
    ("metadata" ∉ db.tables → NaokoDB.getVersionImpl db = Except.ok 1) ∧
    (∀ row, "metadata" ∈ db.tables →
      (db.metadata.filter (fun r => r.1 = "dbversion")).head? = Option.some row →
      ((∀ n : Int, pyInt row.2 = Option.some n →
          NaokoDB.getVersionImpl db = Except.ok n) ∧
       (pyInt row.2 = Option.none →
          NaokoDB.getVersionImpl db = Except.error (DBError.intParse row.2)))) := by
  constructor
  · intro hm
    simp [NaokoDB.getVersionImpl, hm]
  · intro row hm hrow
    constructor
    · intro n hn
      simp [NaokoDB.getVersionImpl, hm, hrow, hn]
    · intro hn
      simp [NaokoDB.getVersionImpl, hm, hrow, hn]

/-- Claim C6, witness: on the version-2 schema the stored value 2 parses
and getVersion returns 2. -/
theorem C6_getVersion_witness :
    NaokoDB.getVersionImpl initscriptDB = Except.ok 2 :=
  ((C6_getVersion initscriptDB).2 ("dbversion", "2") (by decide) (by decide)).1 2
    (by decide)

/-- Claim C10: when a metadata table exists but holds no dbversion row,
getVersion subscripts the None that fetchone returns and raises the
TypeError instead of falling back to any default version; in particular
it does not return the legacy version 1, which the no-metadata branch
alone produces. -/
theorem C10_empty_metadata (db : SQLiteDB)
    (hm : "metadata" ∈ db.tables)
    (he : db.metadata.filter (fun r => r.1 = "dbversion") = []) :
    NaokoDB.getVersionImpl db = Except.error DBError.noneSubscript ∧
    DBError.pyClass DBError.noneSubscript = "TypeError" ∧
    ∀ n : Int, NaokoDB.getVersionImpl db ≠ Except.ok n := by
  have h1 : NaokoDB.getVersionImpl db = Except.error DBError.noneSubscript := by
    simp [NaokoDB.getVersionImpl, hm, he]
  refine ⟨h1, rfl, ?_⟩
  intro n hn
  rw [h1] at hn
  cases hn

/-- Claim C10, witness: the concrete database whose metadata table is
empty makes getVersion raise the TypeError. -/
theorem C10_empty_metadata_witness :
    NaokoDB.getVersionImpl (SQLiteDB.mk ["metadata"] [] [] []) =
      Except.error DBError.noneSubscript :=
  (C10_empty_metadata (SQLiteDB.mk ["metadata"] [] [] []) (by decide) (by decide)).1

/-- Claim C8: on every non-empty database whose stored version parses to
an integer other than 1 and 2, schema setup succeeds, changes nothing,
and logs the unknown-version warning; on stored version 2 it succeeds,
changes nothing, and logs nothing. -/
theorem C8_unknown_version (db : SQLiteDB) (v : Int)
    (hne : db.tables ≠ [])
    (hv : NaokoDB.getVersionImpl db = Except.ok v) :
    (v ≠ 1 → v ≠ 2 →
      NaokoDB.setupSchema db =
        Except.ok (db, ["UNKNOWN DATABASE VERSION: " ++ toString v])) ∧
    (v = 2 → NaokoDB.setupSchema db = Except.ok (db, [])) := by
  have hlen : ¬ db.tables.length = 0 := by
    simpa [List.length_eq_zero] using hne
  constructor
  · intro h1 h2
    simp [NaokoDB.setupSchema, hlen, hv, h1, h2]
  · intro h2
    subst h2
    simp [NaokoDB.setupSchema, hlen, hv]

/-- Claim C8, witness: a database marked version 3 is left unchanged with
the warning, and the version-2 schema is left unchanged silently. -/
theorem C8_unknown_version_witness :
    NaokoDB.setupSchema
        (SQLiteDB.mk ["video_stats", "videos", "chat", "metadata"] []
          [("dbversion", "3")] []) =
      Except.ok
        (SQLiteDB.mk ["video_stats", "videos", "chat", "metadata"] []
          [("dbversion", "3")] [],
         ["UNKNOWN DATABASE VERSION: " ++ toString (3 : Int)]) :=
  (C8_unknown_version
    (SQLiteDB.mk ["video_stats", "videos", "chat", "metadata"] []
      [("dbversion", "3")] []) 3 (by decide) (by decide)).1 (by decide) (by decide)

/-- Claim C9: insertChat called with only message and username on an open
handle with no pending writes appends exactly one 7-tuple row to the chat
table and flushes it at once (the commit empties the pending buffer),
with userid defaulted to the username, timestamp defaulted to the
wall-clock seconds read at the call, and protocol the string ST. -/
theorem C9_insertChat_defaults (h : Handle) (now : Int) (msg username : PyVal)
    (hopen : h.state = "open")
    (htbl : "chat" ∈ h.db.tables)
    (hpend : h.pendingChat = []) :
    NaokoDB.insertChat h now msg username PyVal.none PyVal.none (PyVal.str "ST")
        PyVal.none PyVal.none =
      Except.ok (Handle.mk h.state
        (SQLiteDB.mk h.db.tables h.db.indexes h.db.metadata
          (h.db.chat ++ [ChatRow.mk (PyVal.int now) username username msg
            (PyVal.str "ST") PyVal.none PyVal.none]))
        []) := by
  simp [NaokoDB.insertChat, dbopen_check, hopen, htbl, hpend, commitHandle]

/-- Claim C9, witness: inserting the message m from user u at clock 5
into the fresh schema appends the defaulted row and leaves nothing
pending. -/
theorem C9_insertChat_defaults_witness :
    NaokoDB.insertChat (Handle.mk "open" initscriptDB []) 5 (PyVal.str "m")
        (PyVal.str "u") PyVal.none PyVal.none (PyVal.str "ST") PyVal.none
        PyVal.none =
      Except.ok (Handle.mk "open"
        (SQLiteDB.mk initscriptDB.tables initscriptDB.indexes
          initscriptDB.metadata
          [ChatRow.mk (PyVal.int 5) (PyVal.str "u") (PyVal.str "u")
            (PyVal.str "m") (PyVal.str "ST") PyVal.none PyVal.none])
        []) :=
  C9_insertChat_defaults (Handle.mk "open" initscriptDB []) 5 (PyVal.str "m")
    (PyVal.str "u") rfl (by decide) rfl

/-- Claim C7: on every version-2 database (required tables present,
version marker reading 2, any index named chat_ts or chat_user indexing
the chat table), dropping the metadata and chat tables makes getVersion
return 1; re-running schema setup then performs the five upgrade
statements in their fixed order and succeeds, after which getVersion
returns 2 and the dropped tables exist again. -/
theorem C7_upgrade_roundtrip (db : SQLiteDB)
    (hvid : "videos" ∈ db.tables)
    (hmeta : "metadata" ∈ db.tables)
    (hchat : "chat" ∈ db.tables)
    (hver : NaokoDB.getVersionImpl db = Except.ok 2)
    (hix : ∀ ix ∈ db.indexes, ix.1 = "chat_ts" ∨ ix.1 = "chat_user" → ix.2 = "chat") :
    downgrade db = Except.ok (droppedDB db) ∧
    NaokoDB.getVersionImpl (droppedDB db) = Except.ok 1 ∧
    NaokoDB.setupSchema (droppedDB db) = Except.ok (upgradedDB db, []) ∧
    upgrade_1_2 (droppedDB db) = Except.ok (upgradedDB db) ∧
    NaokoDB.getVersionImpl (upgradedDB db) = Except.ok 2 ∧
    "metadata" ∈ (upgradedDB db).tables ∧ "chat" ∈ (upgradedDB db).tables := by
  have hchatA : "chat" ∈ db.tables.filter (fun t => t ≠ "metadata") := by
    rw [List.mem_filter]
    exact ⟨hchat, rfl⟩
  have h1 : dropTable "metadata" db =
      Except.ok (SQLiteDB.mk (db.tables.filter (fun t => t ≠ "metadata"))
        (db.indexes.filter (fun ix => ix.2 ≠ "metadata")) [] db.chat) := by
    simp only [dropTable]
    rw [if_pos hmeta]
    rfl
  have h2 : dropTable "chat"
      (SQLiteDB.mk (db.tables.filter (fun t => t ≠ "metadata"))
        (db.indexes.filter (fun ix => ix.2 ≠ "metadata")) [] db.chat) =
      Except.ok (droppedDB db) := by
    simp only [dropTable]
    rw [if_pos hchatA]
    rfl
  have hdown : downgrade db = Except.ok (droppedDB db) := by
    simp only [downgrade]
    rw [h1]
    exact h2
  have hm1 : ¬ "metadata" ∈ (droppedDB db).tables := by
    intro hmem
    exact absurd (List.mem_filter.mp (List.mem_filter.mp hmem).1).2 (by decide)
  have hver1 : NaokoDB.getVersionImpl (droppedDB db) = Except.ok 1 := by
    simp only [NaokoDB.getVersionImpl]
    rw [if_neg hm1]
  have hvid1 : "videos" ∈ (droppedDB db).tables := by
    rw [List.mem_filter]
    refine ⟨?_, rfl⟩
    rw [List.mem_filter]
    exact ⟨hvid, rfl⟩
  have hnil1 : ¬ (droppedDB db).tables.length = 0 := by
    intro h0
    rw [List.length_eq_zero] at h0
    rw [h0] at hvid1
    cases hvid1
  have hc1 : createTable "metadata" (droppedDB db) =
      Except.ok (SQLiteDB.mk ((droppedDB db).tables ++ ["metadata"])
        (droppedDB db).indexes [] []) := by
    simp only [createTable]
    rw [if_neg hm1]
    rfl
  have hchatB : ¬ "chat" ∈ (droppedDB db).tables ++ ["metadata"] := by
    intro hmem
    rcases List.mem_append.mp hmem with h5 | h5
    · exact absurd (List.mem_filter.mp h5).2 (by decide)
    · simp at h5
  have hc2 : createTable "chat"
      (SQLiteDB.mk ((droppedDB db).tables ++ ["metadata"])
        (droppedDB db).indexes [] []) =
      Except.ok (SQLiteDB.mk (((droppedDB db).tables ++ ["metadata"]) ++ ["chat"])
        (droppedDB db).indexes [] []) := by
    simp only [createTable]
    rw [if_neg hchatB]
    rfl
  have hchatC : "chat" ∈ ((droppedDB db).tables ++ ["metadata"]) ++ ["chat"] :=
    List.mem_append.mpr (Or.inr (by decide))
  have hts : ¬ "chat_ts" ∈ ((droppedDB db).indexes).map Prod.fst := by
    intro hmem
    obtain ⟨ix, hixmem, hfst⟩ := List.mem_map.mp hmem
    have h6 := List.mem_filter.mp hixmem
    have h7 := List.mem_filter.mp h6.1
    have h8 : ix.2 = "chat" := hix ix h7.1 (Or.inl hfst)
    have h9 := h6.2
    rw [h8] at h9
    exact absurd h9 (by decide)
  have hc3 : createIndex "chat_ts" "chat"
      (SQLiteDB.mk (((droppedDB db).tables ++ ["metadata"]) ++ ["chat"])
        (droppedDB db).indexes [] []) =
      Except.ok (SQLiteDB.mk (((droppedDB db).tables ++ ["metadata"]) ++ ["chat"])
        ((droppedDB db).indexes ++ [("chat_ts", "chat")]) [] []) := by
    simp only [createIndex]
    rw [if_pos hchatC, if_neg hts]
  have htu : ¬ "chat_user" ∈
      ((droppedDB db).indexes ++ [("chat_ts", "chat")]).map Prod.fst := by
    intro hmem
    rw [List.map_append] at hmem
    rcases List.mem_append.mp hmem with h5 | h5
    · obtain ⟨ix, hixmem, hfst⟩ := List.mem_map.mp h5
      have h6 := List.mem_filter.mp hixmem
      have h7 := List.mem_filter.mp h6.1
      have h8 : ix.2 = "chat" := hix ix h7.1 (Or.inr hfst)
      have h9 := h6.2
      rw [h8] at h9
      exact absurd h9 (by decide)
    · simp at h5
  have hc4 : createIndex "chat_user" "chat"
      (SQLiteDB.mk (((droppedDB db).tables ++ ["metadata"]) ++ ["chat"])
        ((droppedDB db).indexes ++ [("chat_ts", "chat")]) [] []) =
      Except.ok (SQLiteDB.mk (((droppedDB db).tables ++ ["metadata"]) ++ ["chat"])
        (((droppedDB db).indexes ++ [("chat_ts", "chat")]) ++ [("chat_user", "chat")])
        [] []) := by
    simp only [createIndex]
    rw [if_pos hchatC, if_neg htu]
  have hmetaD : "metadata" ∈ ((droppedDB db).tables ++ ["metadata"]) ++ ["chat"] :=
    List.mem_append.mpr (Or.inl (List.mem_append.mpr (Or.inr (by decide))))
  have hc5 : insertMetadataRow "dbversion" "2"
      (SQLiteDB.mk (((droppedDB db).tables ++ ["metadata"]) ++ ["chat"])
        (((droppedDB db).indexes ++ [("chat_ts", "chat")]) ++ [("chat_user", "chat")])
        [] []) =
      Except.ok (upgradedDB db) := by
    have hfilt : List.filter (fun r => r.1 = "dbversion")
        ([] : List (String × String)) = [] := rfl
    simp only [insertMetadataRow]
    rw [if_pos hmetaD, if_pos hfilt]
    rfl
  have hupg : upgrade_1_2 (droppedDB db) = Except.ok (upgradedDB db) := by
    simp only [upgrade_1_2, upgrade_stmts, runStmts, execStmt, hc1, hc2, hc3, hc4, hc5]
  have hsetup1 : NaokoDB.setupSchema (droppedDB db) =
      Except.ok (upgradedDB db, []) := by
    simp only [NaokoDB.setupSchema]
    rw [if_neg hnil1, hver1]
    simp [hupg]
  have hver2 : NaokoDB.getVersionImpl (upgradedDB db) = Except.ok 2 := by
    simp only [NaokoDB.getVersionImpl]
    rw [if_pos hmetaD]
    rfl
  exact ⟨hdown, hver1, hsetup1, hupg, hver2, hmetaD, hchatC⟩

/-- Claim C7, witness: the concrete version-2 schema round-trips through
the downgrade and the re-run of setup. -/
theorem C7_upgrade_roundtrip_witness :
    downgrade initscriptDB = Except.ok (droppedDB initscriptDB) ∧
    NaokoDB.getVersionImpl (droppedDB initscriptDB) = Except.ok 1 ∧
    NaokoDB.setupSchema (droppedDB initscriptDB) =
      Except.ok (upgradedDB initscriptDB, []) ∧
    upgrade_1_2 (droppedDB initscriptDB) = Except.ok (upgradedDB initscriptDB) ∧
    NaokoDB.getVersionImpl (upgradedDB initscriptDB) = Except.ok 2 ∧
    "metadata" ∈ (upgradedDB initscriptDB).tables ∧
    "chat" ∈ (upgradedDB initscriptDB).tables :=
  C7_upgrade_roundtrip initscriptDB (by decide) (by decide) (by decide) (by decide)
    (by decide)
